import Mathlib

/-!
# Verification of the FootballAPI query/filter/aggregate/predict pipeline

Shallow embedding of `fullapi.php` (class `FootballAPI`).  PHP associative
arrays of match records become the `MatchRecord` structure; raw query
parameters are a list of string pairs; sanitized parameter values are the
`PValue` type (PHP string / int / null).  PHP floats are modelled exactly by
`Rat`; `round($x, 2)` becomes `phpRound2` (round half away from zero).
`usort` (stable since PHP 8) is modelled as a stable insertion sort driven by
the source's comparator, including PHP's spaceship semantics on the `false`
value that `strtotime` returns for unparsable dates.  A value of the wrong
PHP type reaching a `string`-typed parameter under `declare(strict_types=1)`
raises a `TypeError`, which is neither caught by the `catch (\Exception)`
blocks nor recoverable; fallible steps therefore live in `Except Unit`.
-/

namespace FootballAPI

/-- A sanitized PHP parameter value: `validateAndSanitizeParams` produces
strings, ints (for `page`/`page_size`) or `null` (for non-integer
`page`/`page_size` values). -/
inductive PValue where
  | str (s : String)
  | int (n : Int)
  | null
deriving DecidableEq

/-- A value stored under a `score` field: an integer, or a string which may
well be non-numeric — the spec's data model explicitly admits present but
malformed (non-numeric) score values, and PHP treats the two differently at
an uncast comparison versus an `(int)` cast. -/
inductive ScoreVal where
  | int (n : Int)
  | str (s : String)
deriving DecidableEq

/-- One match record.  `home_team`, `away_team`, `date` are the optional
top-level string fields the source reads; `score` is the optional nested
array (field name to `ScoreVal`, covering `score.home` / `score.away` and
any `score_<field>` filter target, including present-but-non-numeric
values); `other` holds any further top-level string fields reached by the
default filter predicate. -/
structure MatchRecord where
  home_team : Option String
  away_team : Option String
  date : Option String
  score : Option (List (String × ScoreVal))
  other : List (String × String)
deriving DecidableEq

/-- PHP `strtolower` (ASCII case folding, character-wise). -/
def strToLower (s : String) : String := ⟨s.data.map Char.toLower⟩

/-- PHP `str_starts_with($k, 'score_')`. -/
def startsWithScore (k : String) : Bool := "score_".data.isPrefixOf k.data

/-- PHP `str_replace('score_', '', $key)`: every non-overlapping occurrence
of `score_` removed, scanning left to right. -/
def stripScoreUnderscore : List Char → List Char
  | 's' :: 'c' :: 'o' :: 'r' :: 'e' :: '_' :: rest => stripScoreUnderscore rest
  | c :: rest => c :: stripScoreUnderscore rest
  | [] => []

/-- PHP `strcasecmp(a, b) === 0`: byte-wise case-insensitive equality
(ASCII case folding, as `Char.toLower` performs on ASCII). -/
def strcasecmpEq (a b : String) : Bool :=
  a.data.map Char.toLower == b.data.map Char.toLower

/-- PHP `empty($s)` for a string: true exactly on `""` and `"0"`. -/
def phpEmpty (s : String) : Bool := s = "" || s = "0"

/-- PHP `is_numeric($s)` restricted to the decimal forms the API can meet:
optional surrounding whitespace and sign, digits with at most one decimal
point (exponents not modelled; no claim exercises them). -/
def phpIsNumeric (s : String) : Bool :=
  let cs := (s.data.dropWhile Char.isWhitespace).reverse.dropWhile Char.isWhitespace |>.reverse
  let cs := match cs with
    | c :: r => if c = '+' || c = '-' then r else c :: r
    | [] => []
  match cs.span Char.isDigit with
  | (ds, []) => !ds.isEmpty
  | (ds, dot :: fr) => dot = '.' && (!ds.isEmpty || !fr.isEmpty) && fr.all Char.isDigit

/-- PHP `round($q, 2)`: half away from zero, to 2 decimal places,
exact on rationals. -/
def phpRound2 (q : Rat) : Rat :=
  if 0 ≤ q then (⌊q * 100 + 1/2⌋ : Rat) / 100 else -((⌊-(q * 100) + 1/2⌋ : Rat) / 100)

/-- PHP `round($q)`: half away from zero to an integer. -/
def phpRound0 (q : Rat) : Int :=
  if 0 ≤ q then ⌊q + 1/2⌋ else -⌊-q + 1/2⌋

/-- Value of one decimal digit character. -/
def digitVal (c : Char) : Nat := c.toNat - 48

/-- Numeric value of a string of decimal digit characters. -/
def digitsToNat (l : List Char) : Nat := l.foldl (fun a c => a * 10 + digitVal c) 0

/-- Days from 1970-01-01 for a civil date (Howard Hinnant's algorithm).
For every year from 1 onward all divisions below act on nonnegative
operands, where Lean's integer division agrees with C's. -/
def daysFromCivil (y m d : Int) : Int :=
  let y2 := if m ≤ 2 then y - 1 else y
  let era := (if 0 ≤ y2 then y2 else y2 - 399) / 400
  let yoe := y2 - era * 400
  let mp := (m + 9) % 12
  let doy := (153 * mp + 2) / 5 + d - 1
  let doe := yoe * 365 + yoe / 4 - yoe / 100 + doy
  era * 146097 + doe - 719468

/-- Model of PHP date parsing (`strtotime` / `new DateTime`) restricted to
the ISO `YYYY-MM-DD` strings this dataset uses: `none` exactly when the
string is not of that shape (PHP returns `false` / throws there).  The
result is the day number relative to the Unix epoch (UTC). -/
def parseISODate (s : String) : Option Int :=
  match s.data with
  | [y1, y2, y3, y4, h1, m1, m2, h2, d1, d2] =>
    if h1 = '-' && h2 = '-' && [y1, y2, y3, y4, m1, m2, d1, d2].all Char.isDigit then
      let y : Int := digitsToNat [y1, y2, y3, y4]
      let mo : Int := digitsToNat [m1, m2]
      let da : Int := digitsToNat [d1, d2]
      if 1 ≤ mo && mo ≤ 12 && 1 ≤ da && da ≤ 31 then some (daysFromCivil y mo da)
      else none
    else none
  | _ => none

/-- PHP `strtotime` on a date string: Unix timestamp in seconds,
`none` where PHP yields `false`. -/
def strtotimeM (s : String) : Option Int := (parseISODate s).map (· * 86400)

/-- The value `isset($m['date']) ? strtotime($m['date']) : 0` can take:
an int timestamp, or PHP `false` when `strtotime` fails. -/
inductive DateKey where
  | ts (n : Int)
  | fls
deriving DecidableEq

/-- The sort key computed in the `usort` comparator of `processRequest`:
missing date gives int `0`, unparsable date gives `false`. -/
def dateKey (m : MatchRecord) : DateKey :=
  match m.date with
  | none => .ts 0
  | some s => match strtotimeM s with
    | some n => .ts n
    | none => .fls

/-- PHP's spaceship `a <=> b` on the values a date key can take: when either
side is the bool `false`, PHP compares both operands as bools. -/
def phpSpaceship : DateKey → DateKey → Int
  | .ts a, .ts b => if a < b then -1 else if b < a then 1 else 0
  | .fls, .ts b => if b = 0 then 0 else -1
  | .ts a, .fls => if a = 0 then 0 else 1
  | .fls, .fls => 0

/-- The comparator passed to `usort`: `$dateB <=> $dateA` (descending). -/
def dateCmp (a b : MatchRecord) : Int := phpSpaceship (dateKey b) (dateKey a)

/-- Stable insertion of `x` into `l` for a three-way comparator: `x` goes in
front of the first element `y` with `c x y < 0`, after anything comparing
equal (the stability PHP 8 `usort` guarantees). -/
def insertCmp {α : Type} (c : α → α → Int) (x : α) : List α → List α
  | [] => [x]
  | y :: ys => if c x y < 0 then x :: y :: ys else y :: insertCmp c x ys

/-- Stable comparator sort (model of PHP 8 `usort`). -/
def sortCmp {α : Type} (c : α → α → Int) (l : List α) : List α :=
  l.foldl (fun acc x => insertCmp c x acc) []

/-- The date-descending sort `processRequest` applies to the filtered list. -/
def sortMatchesByDate (l : List MatchRecord) : List MatchRecord := sortCmp dateCmp l

/-- PHP `isset($m['score'][$f])`: value of a score field when the score array and
the field are both present. -/
def scoreGet (m : MatchRecord) (f : String) : Option ScoreVal :=
  m.score.bind (fun sc => sc.lookup f)

/-- PHP `(int)` cast of a score value: an integer is itself; a string is
parsed as its longest leading integer prefix after optional whitespace and
sign (`(int)'abc' = 0`, `(int)'2x' = 2`). -/
def phpIntCast : ScoreVal → Int
  | .int n => n
  | .str s =>
    let cs := s.data.dropWhile Char.isWhitespace
    let p : Int × List Char := match cs with
      | '+' :: r => (1, r)
      | '-' :: r => (-1, r)
      | r => (1, r)
    p.1 * (digitsToNat (p.2.takeWhile Char.isDigit) : Int)

/-- PHP `(float)` cast of a score value: leading whitespace, optional sign,
digits with an optional fractional part (exponents not modelled). -/
def phpFloatCast : ScoreVal → Rat
  | .int n => n
  | .str s =>
    let cs := s.data.dropWhile Char.isWhitespace
    let p : Rat × List Char := match cs with
      | '+' :: r => (1, r)
      | '-' :: r => (-1, r)
      | r => (1, r)
    let ip := p.2.takeWhile Char.isDigit
    let fp := match p.2.drop ip.length with
      | '.' :: r => r.takeWhile Char.isDigit
      | _ => []
    p.1 * ((digitsToNat ip : Rat) + (digitsToNat fp : Rat) / (10 ^ fp.length : Rat))

/-- Byte-wise lexicographic `a > b` on strings (PHP's string comparison). -/
def lexGtChars : List Char → List Char → Bool
  | _ :: _, [] => true
  | [], _ => false
  | a :: as_, b :: bs => if a = b then lexGtChars as_ bs else decide (b < a)

/-- PHP 8 loose comparison `$v > 0` without a cast (line 70 of the source):
an integer compares numerically; a numeric string compares by its numeric
value; a non-numeric string makes PHP stringify the `0` and compare the two
as strings (hence `'abc' > 0` is true). -/
def phpGtZero : ScoreVal → Bool
  | .int n => decide (0 < n)
  | .str s =>
    if phpIsNumeric s then decide (0 < phpFloatCast (.str s))
    else lexGtChars s.data "0".data

/-- A score value PHP's `is_numeric` accepts. -/
def svalIsNumeric : ScoreVal → Bool
  | .int _ => true
  | .str s => phpIsNumeric s

/-- PHP `(string)` cast of a score value (used by the `score_*` filter). -/
def svalToString : ScoreVal → String
  | .int n => toString n
  | .str s => s

/-- The source's validity filter: both `score.home` and `score.away` are
**set** (`isset` only — a present non-numeric value passes). -/
def scoreIssetB (m : MatchRecord) : Bool :=
  (scoreGet m "home").isSome && (scoreGet m "away").isSome

/-- Predicate "score-valid" in the spec's sense: both `score.home` and
`score.away` are present **and numeric** (glossary §3).  It differs from the
code's `scoreIssetB` exactly on present-but-non-numeric values. -/
def scoreValidB (m : MatchRecord) : Bool :=
  (match scoreGet m "home" with
   | some v => svalIsNumeric v
   | none => false) &&
  (match scoreGet m "away" with
   | some v => svalIsNumeric v
   | none => false)

/-- Home score under the `(int)` cast, with the cast's default 0; only read
on records where the field is present. -/
def scoreHome (m : MatchRecord) : Int := ((scoreGet m "home").map phpIntCast).getD 0

/-- Away score, as `scoreHome`. -/
def scoreAway (m : MatchRecord) : Int := ((scoreGet m "away").map phpIntCast).getD 0

/-- Numerator test of `calculateBothTeamsScoredPercentage` (line 70): both
score fields set and both pass the **uncast** loose `> 0` — so a present
non-numeric string such as `'abc'` counts. -/
def bothScoredLooseB (m : MatchRecord) : Bool :=
  match scoreGet m "home", scoreGet m "away" with
  | some h, some a => phpGtZero h && phpGtZero a
  | _, _ => false

/-- Numerator test of `calculateBothTeamsToScoreProb` (line 412) and of
`matchesBothTeamsScored` (line 314): both fields set and both `(int)` casts
strictly positive. -/
def bothScoredIntB (m : MatchRecord) : Bool :=
  match scoreGet m "home", scoreGet m "away" with
  | some h, some a => decide (0 < phpIntCast h) && decide (0 < phpIntCast a)
  | _, _ => false

/-- Source `matchesTeam`: either side equals the value, case-insensitively;
fails when either team field is unset. -/
def matchesTeam (m : MatchRecord) (v : String) : Bool :=
  match m.home_team, m.away_team with
  | some h, some a => strcasecmpEq h v || strcasecmpEq a v
  | _, _ => false

/-- Source `matchesHomeTeam`. -/
def matchesHomeTeam (m : MatchRecord) (v : String) : Bool :=
  match m.home_team with
  | some h => strcasecmpEq h v
  | none => false

/-- Source `matchesAwayTeam`. -/
def matchesAwayTeam (m : MatchRecord) (v : String) : Bool :=
  match m.away_team with
  | some a => strcasecmpEq a v
  | none => false

/-- Source `matchesDate`: both dates must parse (`new DateTime` throws otherwise,
caught to `false`), then record date on or after parameter date. -/
def matchesDate (m : MatchRecord) (v : String) : Bool :=
  match m.date with
  | none => false
  | some d =>
    match parseISODate d, parseISODate v with
    | some a, some b => decide (b ≤ a)
    | _, _ => false

/-- Source `matchesScore`: `str_replace('score_', '', $key)` then string equality of
the stringified score field against the value. -/
def matchesScore (m : MatchRecord) (k v : String) : Bool :=
  let scoreType : String := ⟨stripScoreUnderscore k.data⟩
  match scoreGet m scoreType with
  | some n => svalToString n == v
  | none => false

/-- PHP `filter_var($v, FILTER_VALIDATE_BOOLEAN, FILTER_NULL_ON_FAILURE)`
(case-insensitive keyword parsing). -/
def phpParseBool (s : String) : Option Bool :=
  let t := strToLower s
  if t = "1" || t = "true" || t = "on" || t = "yes" then some true
  else if t = "0" || t = "false" || t = "off" || t = "no" || t = "" then some false
  else none

/-- Source `matchesBothTeamsScored`. -/
def matchesBothTeamsScored (m : MatchRecord) (v : String) : Bool :=
  match scoreGet m "home", scoreGet m "away" with
  | some h, some a =>
    match phpParseBool v with
    | some b => (decide (0 < phpIntCast h) && decide (0 < phpIntCast a)) == b
    | none => false
  | _, _ => false

/-- PHP `(string)$m[$k]` for a top-level field: the named string fields, the
`score` array (PHP stringifies an array as `"Array"`), or a generic field. -/
def phpFieldString (m : MatchRecord) (k : String) : Option String :=
  if k = "home_team" then m.home_team
  else if k = "away_team" then m.away_team
  else if k = "date" then m.date
  else if k = "score" then m.score.map (fun _ => "Array")
  else m.other.lookup k

/-- Source `matchesDefault`: case-insensitive string equality against the same-named
top-level field; absent field fails. -/
def matchesDefault (m : MatchRecord) (k v : String) : Bool :=
  match phpFieldString m k with
  | some s => strcasecmpEq s v
  | none => false

/-- The `switch ($key)` dispatch of `matchParameter`, for a string value
(branch order as in the source; `both_teams_scored` does not carry the
`score_` prefix, so the relative order of those two cases is immaterial). -/
def matchParameterStr (m : MatchRecord) (k v : String) : Bool :=
  if k = "team" then matchesTeam m v
  else if k = "home_team" then matchesHomeTeam m v
  else if k = "away_team" then matchesAwayTeam m v
  else if k = "date" then matchesDate m v
  else if startsWithScore k then matchesScore m k v
  else if k = "both_teams_scored" then matchesBothTeamsScored m v
  else matchesDefault m k v

/-- Calling `matchParameter(array $m, string $key, string $value)` under
`declare(strict_types=1)`: a non-string sanitized value (the `int`/`null`
that `page`/`page_size` sanitize to) raises a `TypeError`, which no
`catch (\Exception)` block catches. -/
def matchParameter (m : MatchRecord) (k : String) (v : PValue) : Except Unit Bool :=
  match v with
  | .str s => .ok (matchParameterStr m k s)
  | _ => .error ()

/-- The `foreach` of `filterMatches`' callback: conjunction over parameters,
short-circuiting on the first failing predicate, aborting on `TypeError`. -/
def runPredicates (m : MatchRecord) : List (String × PValue) → Except Unit Bool
  | [] => .ok true
  | (k, v) :: rest =>
    match matchParameter m k v with
    | .error e => .error e
    | .ok b => if b then runPredicates m rest else .ok false

/-- PHP `array_filter` over the records, evaluating the callback left to right
and propagating an uncaught `TypeError`. -/
def filterMatchesAux (params : List (String × PValue)) :
    List MatchRecord → Except Unit (List MatchRecord)
  | [] => .ok []
  | m :: rest =>
    match runPredicates m params with
    | .error e => .error e
    | .ok b =>
      match filterMatchesAux params rest with
      | .error e => .error e
      | .ok r => .ok (if b then m :: r else r)

/-- Source `filterMatches`: empty parameter list short-circuits to the input,
otherwise keep the records satisfying every parameter predicate. -/
def filterMatches (ms : List MatchRecord) (params : List (String × PValue)) :
    Except Unit (List MatchRecord) :=
  if params.isEmpty then .ok ms else filterMatchesAux params ms

/-- PHP `filter_var($s, FILTER_VALIDATE_INT)`: optional sign, decimal digits, no
leading zero (except `"0"` itself); `none` where PHP yields `false`. -/
def phpValidateInt (s : String) : Option Int :=
  let (sign, ds) : Int × List Char :=
    match s.data with
    | '+' :: r => (1, r)
    | '-' :: r => (-1, r)
    | r => (1, r)
  if !ds.isEmpty && ds.all Char.isDigit && (ds.length = 1 || ds.head? != some '0') then
    some (sign * digitsToNat ds)
  else none

/-- One character of `htmlspecialchars($s, ENT_QUOTES)`. -/
def escChar (c : Char) : List Char :=
  if c = '&' then "&amp;".data
  else if c = '<' then "&lt;".data
  else if c = '>' then "&gt;".data
  else if c = Char.ofNat 34 then "&quot;".data
  else if c = Char.ofNat 39 then "&#039;".data
  else [c]

/-- PHP `htmlspecialchars($s, ENT_QUOTES, 'UTF-8')`. -/
def htmlspecialchars (s : String) : String := ⟨s.data.flatMap escChar⟩

/-- One of the five characters `htmlspecialchars` rewrites. -/
def isHtmlSpecialB (c : Char) : Bool :=
  c = '&' || c = '<' || c = '>' || c = Char.ofNat 34 || c = Char.ofNat 39

/-- The string contains a character `htmlspecialchars` rewrites. -/
def containsHtmlSpecialB (s : String) : Bool := s.data.any isHtmlSpecialB

/-- One iteration of `validateAndSanitizeParams`' `foreach`: skip empty
values, then the `switch ($key)` in source order (`page`/`page_size`, `date`,
`both_teams_scored`, `score_*` prefix, default escaping). -/
def sanitizePair (k v : String) : Option (String × PValue) :=
  if v = "" then none
  else if k = "page" || k = "page_size" then
    some (k, match phpValidateInt v with
      | some n => .int n
      | none => .null)
  else if k = "date" then
    match parseISODate v with
    | some _ => some (k, .str (htmlspecialchars v))
    | none => none
  else if k = "both_teams_scored" then
    if strToLower v = "true" || strToLower v = "false" || strToLower v = "1" || strToLower v = "0" then
      some (k, .str (strToLower v))
    else none
  else if startsWithScore k then
    if phpIsNumeric v then some (k, .str (htmlspecialchars v)) else none
  else some (k, .str (htmlspecialchars v))

/-- Source `validateAndSanitizeParams` over a raw query mapping (unique keys, as in
a PHP array). -/
def validateAndSanitizeParams (raw : List (String × String)) : List (String × PValue) :=
  raw.filterMap (fun p => sanitizePair p.1 p.2)

/-- Source `calculateBothTeamsScoredPercentage`: numerator counts records with both
scores set and positive, denominator is the full list length. -/
def calculateBothTeamsScoredPercentage (ms : List MatchRecord) : Rat :=
  if ms.length = 0 then 0
  else phpRound2 ((((ms.filter bothScoredLooseB).length : Rat) / (ms.length : Rat)) * 100)

/-- The `average_goals` block. -/
structure AvgGoals where
  average_total_goals : Rat
  average_home_goals : Rat
  average_away_goals : Rat
deriving DecidableEq

/-- Sum of a score field over a list, missing values counting as 0
(the `isset(...) ? (int)... : 0` in `calculateAverageGoals`' reducer). -/
def sumScores (f : MatchRecord → Int) (ms : List MatchRecord) : Int :=
  ms.foldl (fun a m => a + f m) 0

/-- Source `calculateAverageGoals`. -/
def calculateAverageGoals (ms : List MatchRecord) : AvgGoals :=
  if ms.isEmpty then ⟨0, 0, 0⟩
  else
    let n : Rat := ms.length
    let home := sumScores (fun m => scoreHome m) ms
    let away := sumScores (fun m => scoreAway m) ms
    ⟨phpRound2 (((home + away : Int) : Rat) / n),
     phpRound2 ((home : Rat) / n),
     phpRound2 ((away : Rat) / n)⟩

/-- A record involving `team` on either side (the filter in
`calculateFormIndex` / `calculateExpectedGoals`). -/
def involvesTeam (team : String) (m : MatchRecord) : Bool :=
  (match m.home_team with | some h => strcasecmpEq h team | none => false) ||
  (match m.away_team with | some a => strcasecmpEq a team | none => false)

/-- Points `team` earns from one match in `calculateFormIndex`'s reducer
(0 when a required field is missing). -/
def formPoints (team : String) (m : MatchRecord) : Nat :=
  match m.home_team, m.away_team, scoreGet m "home", scoreGet m "away" with
  | some h, some _, some hs, some as_ =>
    if strcasecmpEq h team then
      if phpIntCast as_ < phpIntCast hs then 3
      else if phpIntCast hs = phpIntCast as_ then 1 else 0
    else
      if phpIntCast hs < phpIntCast as_ then 3
      else if phpIntCast hs = phpIntCast as_ then 1 else 0
  | _, _, _, _ => 0

/-- Source `calculateFormIndex` (the caller always passes the default
`recentGames = 5`). -/
def calculateFormIndex (ms : List MatchRecord) (team : String) (recentGames : Nat) : Rat :=
  if phpEmpty team then 0
  else
    let teamMatches := ms.filter (involvesTeam team)
    if teamMatches.isEmpty then 0
    else
      let recent := teamMatches.take (min teamMatches.length recentGames)
      let points := recent.foldl (fun a m => a + formPoints team m) 0
      let maxPoints := recent.length * 3
      if 0 < maxPoints then phpRound2 (((points : Rat) / (maxPoints : Rat)) * 100) else 0

/-- The `head_to_head_stats` block. -/
structure H2HStats where
  home_wins : Nat
  away_wins : Nat
  draws : Nat
  home_win_percentage : Rat
  away_win_percentage : Rat
  draw_percentage : Rat
deriving DecidableEq

/-- Source `calculateHeadToHeadStats`: tallies over score-valid records only. -/
def calculateHeadToHeadStats (ms : List MatchRecord) : H2HStats :=
  if ms.isEmpty then ⟨0, 0, 0, 0, 0, 0⟩
  else
    let valid := ms.filter scoreIssetB
    if valid.length = 0 then ⟨0, 0, 0, 0, 0, 0⟩
    else
      let hw := (valid.filter (fun m => decide (scoreAway m < scoreHome m))).length
      let aw := (valid.filter (fun m => decide (scoreHome m < scoreAway m))).length
      let dr := (valid.filter (fun m => decide (scoreHome m = scoreAway m))).length
      let n : Rat := valid.length
      ⟨hw, aw, dr,
       phpRound2 (((hw : Rat) / n) * 100),
       phpRound2 (((aw : Rat) / n) * 100),
       phpRound2 (((dr : Rat) / n) * 100)⟩

/-- Source `calculateExpectedGoals`: average of `team`'s own goals over its
score-valid matches. -/
def calculateExpectedGoals (team : String) (ms : List MatchRecord) : Rat :=
  if phpEmpty team || ms.isEmpty then 0
  else
    let teamMatches := ms.filter (involvesTeam team)
    if teamMatches.isEmpty then 0
    else
      let valid := teamMatches.filter scoreIssetB
      if valid.isEmpty then 0
      else
        let total := valid.foldl
          (fun (a : Rat) m =>
            a + (if strcasecmpEq (m.home_team.getD "") team
                 then ((scoreGet m "home").map phpFloatCast).getD 0
                 else ((scoreGet m "away").map phpFloatCast).getD 0)) 0
        phpRound2 (total / (valid.length : Rat))

/-- Source `calculateBothTeamsToScoreProb`: denominator is the count of score-valid
records only. -/
def calculateBothTeamsToScoreProb (ms : List MatchRecord) : Rat :=
  if ms.isEmpty then 0
  else
    let valid := ms.filter scoreIssetB
    if valid.isEmpty then 0
    else phpRound2 ((((valid.filter bothScoredIntB).length : Rat) / (valid.length : Rat)) * 100)

/-- The pair `predictWinner` returns. -/
structure Prediction where
  winner : String
  confidence : Rat
deriving DecidableEq

/-- The head-to-head subset `predictWinner` builds: exact orientation only
(`home_team` equals the requested home and `away_team` the requested away). -/
def h2hMatches (home away : String) (ms : List MatchRecord) : List MatchRecord :=
  ms.filter (fun m =>
    match m.home_team, m.away_team with
    | some h, some a => strcasecmpEq h home && strcasecmpEq a away
    | _, _ => false)

/-- Source `predictWinner`: the three-way tally of the reducer is expressed as the
three filter-counts it computes. -/
def predictWinner (home away : String) (ms : List MatchRecord) : Prediction :=
  if phpEmpty home || phpEmpty away || ms.isEmpty then ⟨"unknown", 0⟩
  else
    let valid := (h2hMatches home away ms).filter scoreIssetB
    if valid.isEmpty then ⟨"unknown", 0⟩
    else
      let hw := (valid.filter (fun m => decide (scoreAway m < scoreHome m))).length
      let aw := (valid.filter (fun m => decide (scoreHome m < scoreAway m))).length
      let dr := (valid.filter (fun m => decide (scoreHome m = scoreAway m))).length
      let total : Rat := valid.length
      if aw < hw ∧ dr < hw then ⟨"home", phpRound2 ((hw : Rat) / total)⟩
      else if hw < aw ∧ dr < aw then ⟨"away", phpRound2 ((aw : Rat) / total)⟩
      else ⟨"draw", phpRound2 ((dr : Rat) / total)⟩

/-- Source `calculateWinProbability`. -/
def calculateWinProbability (p : Prediction) (outcomeType : String) : Rat :=
  if p.winner = "unknown" then phpRound2 (1/3)
  else if p.winner = outcomeType then p.confidence
  else phpRound2 ((1 - p.confidence) / 2)

/-- The `modelPredictions` block of `runPrediction`. -/
structure ModelPredictions where
  randomForest : String
  poissonHomeGoals : Int
  poissonAwayGoals : Int
  eloHomeWinProb : Rat
  eloDrawProb : Rat
  eloAwayWinProb : Rat
deriving DecidableEq

/-- The full `prediction` payload. -/
structure PredictionPayload where
  homeExpectedGoals : Rat
  awayExpectedGoals : Rat
  bothTeamsToScoreProb : Rat
  predictedWinner : String
  confidence : Rat
  modelPredictions : ModelPredictions
deriving DecidableEq

/-- Source `runPrediction`. -/
def runPrediction (home away : String) (ms : List MatchRecord) : PredictionPayload :=
  let heg := calculateExpectedGoals home ms
  let aeg := calculateExpectedGoals away ms
  let btts := calculateBothTeamsToScoreProb ms
  let wp := predictWinner home away ms
  { homeExpectedGoals := heg
    awayExpectedGoals := aeg
    bothTeamsToScoreProb := btts
    predictedWinner := wp.winner
    confidence := wp.confidence
    modelPredictions :=
      { randomForest := if wp.winner = "unknown" then "insufficient_data" else wp.winner ++ "_win"
        poissonHomeGoals := phpRound0 heg
        poissonAwayGoals := phpRound0 aeg
        eloHomeWinProb := calculateWinProbability wp "home"
        eloDrawProb := calculateWinProbability wp "draw"
        eloAwayWinProb := calculateWinProbability wp "away" } }

/-- Team names collected by `getAvailableTeams`' reducer (home then away per
record, skipping PHP-empty values). -/
def collectTeams (ms : List MatchRecord) : List String :=
  ms.foldl
    (fun acc m =>
      let acc1 := match m.home_team with
        | some h => if phpEmpty h then acc else acc ++ [h]
        | none => acc
      match m.away_team with
      | some a => if phpEmpty a then acc1 else acc1 ++ [a]
      | none => acc1) []

/-- Case-insensitive de-duplication keeping the first-seen casing, in
first-seen order. -/
def dedupCI (l : List String) : List String :=
  (l.foldl
    (fun (p : List String × List String) t =>
      if p.1.contains (strToLower t) then p else (p.1 ++ [strToLower t], p.2 ++ [t])) ([], [])).2

/-- Source `getAvailableTeams`, always applied to the full loaded dataset. -/
def getAvailableTeams (ms : List MatchRecord) : List String :=
  dedupCI (collectTeams ms)

/-- PHP `isset($params[$k]) ? (int)$params[$k] : default`: the sanitizer maps
`page`/`page_size` to `.int` or `.null`, and `isset` is false on `null`. -/
def computedPage (params : List (String × PValue)) : Int :=
  match params.lookup "page" with
  | some (.int n) => max 1 n
  | _ => 1

/-- The clamped page size (`DEFAULT_PAGE_SIZE = 100`, `MAX_PAGE_SIZE = 500`). -/
def computedPageSize (params : List (String × PValue)) : Int :=
  match params.lookup "page_size" with
  | some (.int n) => min (max 1 n) 500
  | _ => 100

/-- PHP `$params['home_team'] ?? ''` (those keys sanitize to strings). -/
def paramString (params : List (String × PValue)) (k : String) : String :=
  match params.lookup k with
  | some (.str s) => s
  | _ => ""

/-- The symmetric-orientation subset built inline in `processRequest` for
`team_analysis`. -/
def teamAnalysisMatches (home away : String) (ms : List MatchRecord) : List MatchRecord :=
  ms.filter (fun m =>
    match m.home_team, m.away_team with
    | some h, some a =>
      (strcasecmpEq h home && strcasecmpEq a away) ||
      (strcasecmpEq h away && strcasecmpEq a home)
    | _, _ => false)

/-- The `team_analysis` block. -/
structure TeamAnalysis where
  home_team : String
  away_team : String
  matches_count : Nat
  both_teams_scored_percentage : Rat
  average_goals : AvgGoals
  home_form_index : Rat
  away_form_index : Rat
  head_to_head_stats : H2HStats
deriving DecidableEq

/-- The `ResultEnvelope`. -/
structure Response where
  total_matches : Nat
  page : Int
  page_size : Int
  matchesSlice : List MatchRecord
  team_analysis : Option TeamAnalysis
  prediction : Option PredictionPayload
  teams : List String
deriving DecidableEq

/-- Source `processRequest`, from the sanitizer to the response envelope, for a
loaded dataset `matches` and raw query parameters `raw`.  The internal
`catch (\Exception)` is not modelled because the only runtime failure the
pipeline can produce is the `TypeError` from `matchParameter` (an `\Error`,
which that handler does not catch); it propagates as `.error`. -/
def processRequest (loaded : List MatchRecord) (raw : List (String × String)) :
    Except Unit Response :=
  let params := validateAndSanitizeParams raw
  match filterMatches loaded params with
  | .error e => .error e
  | .ok filtered =>
    let sorted := sortMatchesByDate filtered
    let page := computedPage params
    let pageSize := computedPageSize params
    let totalMatches := sorted.length
    let offset := ((page - 1) * pageSize).toNat
    let paginated := (sorted.drop offset).take pageSize.toNat
    let homeTeam := paramString params "home_team"
    let awayTeam := paramString params "away_team"
    let withTeams := !phpEmpty homeTeam && !phpEmpty awayTeam
    let analysis : Option TeamAnalysis :=
      if withTeams then
        let tam := teamAnalysisMatches homeTeam awayTeam sorted
        some
          { home_team := homeTeam
            away_team := awayTeam
            matches_count := tam.length
            both_teams_scored_percentage := calculateBothTeamsScoredPercentage tam
            average_goals := calculateAverageGoals tam
            home_form_index := calculateFormIndex sorted homeTeam 5
            away_form_index := calculateFormIndex sorted awayTeam 5
            head_to_head_stats := calculateHeadToHeadStats tam }
      else none
    let prediction : Option PredictionPayload :=
      if withTeams then some (runPrediction homeTeam awayTeam sorted) else none
    .ok
      { total_matches := totalMatches
        page := page
        page_size := pageSize
        matchesSlice := paginated
        team_analysis := analysis
        prediction := prediction
        teams := getAvailableTeams loaded }

/-! ## Concrete fixtures used by the scenario claims -/

/-- Record: A vs B, 2-1, 2024-01-01. -/
def recAB21 : MatchRecord :=
  ⟨some "A", some "B", some "2024-01-01",
   some [("home", ScoreVal.int 2), ("away", ScoreVal.int 1)], []⟩

/-- Record: B vs A, 0-0, 2024-02-01. -/
def recBA00 : MatchRecord :=
  ⟨some "B", some "A", some "2024-02-01",
   some [("home", ScoreVal.int 0), ("away", ScoreVal.int 0)], []⟩

/-- Record: A vs B, 1-1, 2024-03-01. -/
def recAB11 : MatchRecord :=
  ⟨some "A", some "B", some "2024-03-01",
   some [("home", ScoreVal.int 1), ("away", ScoreVal.int 1)], []⟩

/-- The three-record dataset of the head-to-head scenario. -/
def c2data : List MatchRecord := [recAB21, recBA00, recAB11]

/-- The raw query of the head-to-head scenario. -/
def c2query : List (String × String) := [("home_team", "A"), ("away_team", "B")]

/-- A record dated before the Unix epoch (parsable, negative timestamp). -/
def rec1969 : MatchRecord := ⟨some "X", some "Y", some "1969-01-01", none, []⟩

/-- A record with no date field at all. -/
def recNoDate : MatchRecord := ⟨some "X", some "Y", none, none, []⟩

/-- A score-invalid record: `score.home` present, `score.away` absent. -/
def recHalfScore : MatchRecord :=
  ⟨some "A", some "B", some "2024-04-01", some [("home", ScoreVal.int 3)], []⟩

/-- A record whose `score.home` is a present but non-numeric string
(score-invalid per the glossary, yet it passes every `isset` check and its
uncast `> 0` comparison is true in PHP 8). -/
def recStrScore : MatchRecord :=
  ⟨some "A", some "B", some "2024-05-01",
   some [("home", ScoreVal.str "abc"), ("away", ScoreVal.int 2)], []⟩

/-- An A-vs-B record whose both score fields are present non-numeric
strings. -/
def recBadScore : MatchRecord :=
  ⟨some "A", some "B", some "2024-06-01",
   some [("home", ScoreVal.str "abc"), ("away", ScoreVal.str "x")], []⟩

end FootballAPI

namespace FootballAPI

/-! ## Rounding and counting lemmas -/

/-- On nonnegative arguments `phpRound2` takes its floor branch. -/
theorem phpRound2_of_nonneg (q : Rat) (h : 0 ≤ q) :
    phpRound2 q = (⌊q * 100 + 1/2⌋ : Rat) / 100 := by
  unfold phpRound2
  exact if_pos h

/-- Rounding a nonnegative value stays nonnegative. -/
theorem phpRound2_nonneg (q : Rat) (h : 0 ≤ q) : 0 ≤ phpRound2 q := by
  rw [phpRound2_of_nonneg q h]
  have hf : (0 : Int) ≤ ⌊q * 100 + 1/2⌋ := by
    rw [Int.le_floor]
    push_cast
    linarith
  have : (0 : Rat) ≤ (⌊q * 100 + 1/2⌋ : Rat) := by exact_mod_cast hf
  linarith

/-- Function `phpRound2` is monotone on nonnegative arguments. -/
theorem phpRound2_mono (x y : Rat) (hx : 0 ≤ x) (hxy : x ≤ y) :
    phpRound2 x ≤ phpRound2 y := by
  rw [phpRound2_of_nonneg x hx, phpRound2_of_nonneg y (le_trans hx hxy)]
  have hf : ⌊x * 100 + 1/2⌋ ≤ ⌊y * 100 + 1/2⌋ := Int.floor_le_floor (by linarith)
  have : ((⌊x * 100 + 1/2⌋ : Int) : Rat) ≤ (⌊y * 100 + 1/2⌋ : Rat) := by exact_mod_cast hf
  linarith

/-- Rounding a value of `[0, 1]` stays at most 1. -/
theorem phpRound2_le_one (q : Rat) (h0 : 0 ≤ q) (h1 : q ≤ 1) : phpRound2 q ≤ 1 := by
  rw [phpRound2_of_nonneg q h0]
  have hf : ⌊q * 100 + 1/2⌋ ≤ ⌊(201 : Rat)/2⌋ := Int.floor_le_floor (by linarith)
  have h201 : (⌊(201 : Rat)/2⌋ : Int) = 100 := by norm_num
  rw [h201] at hf
  have : ((⌊q * 100 + 1/2⌋ : Int) : Rat) ≤ 100 := by exact_mod_cast hf
  linarith

/-- Rounding zero gives zero: `phpRound2 0 = 0`. -/
theorem phpRound2_zero : phpRound2 0 = 0 := by norm_num [phpRound2]

/-- Rounding to two decimals moves a value by at most `1/200`. -/
theorem abs_phpRound2_sub (q : Rat) : |phpRound2 q - q| ≤ 1/200 := by
  unfold phpRound2
  by_cases h : 0 ≤ q
  · rw [if_pos h]
    have h1 : (⌊q * 100 + 1/2⌋ : Rat) ≤ q * 100 + 1/2 := Int.floor_le _
    have h2 : q * 100 + 1/2 - 1 < (⌊q * 100 + 1/2⌋ : Rat) := Int.sub_one_lt_floor _
    rw [abs_le]
    constructor <;> linarith
  · rw [if_neg h]
    have h1 : (⌊-(q * 100) + 1/2⌋ : Rat) ≤ -(q * 100) + 1/2 := Int.floor_le _
    have h2 : -(q * 100) + 1/2 - 1 < (⌊-(q * 100) + 1/2⌋ : Rat) := Int.sub_one_lt_floor _
    rw [abs_le]
    constructor <;> linarith

/-- Both score fields set on a record whose present values are not strings
follow the two fields being spelled out: every record counted by the
`(int)`-cast numerator has both fields set. -/
theorem bothScoredInt_imp_isset (m : MatchRecord) (h : bothScoredIntB m = true) :
    scoreIssetB m = true := by
  unfold bothScoredIntB at h
  unfold scoreIssetB
  cases hh : scoreGet m "home" with
  | none => rw [hh] at h; simp at h
  | some x =>
    cases ha : scoreGet m "away" with
    | none => rw [hh, ha] at h; simp at h
    | some y => simp [hh, ha]

/-- Every record counted by the uncast (line 70) numerator has both fields
set as well. -/
theorem bothScoredLoose_imp_isset (m : MatchRecord) (h : bothScoredLooseB m = true) :
    scoreIssetB m = true := by
  unfold bothScoredLooseB at h
  unfold scoreIssetB
  cases hh : scoreGet m "home" with
  | none => rw [hh] at h; simp at h
  | some x =>
    cases ha : scoreGet m "away" with
    | none => rw [hh, ha] at h; simp at h
    | some y => simp [hh, ha]

/-- Filtering the both-fields-set records first does not change the subset
selected by any predicate that itself implies both fields are set. -/
theorem filter_isset_sub (p : MatchRecord → Bool)
    (himp : ∀ m : MatchRecord, p m = true → scoreIssetB m = true)
    (ms : List MatchRecord) :
    (ms.filter scoreIssetB).filter p = ms.filter p := by
  induction ms with
  | nil => rfl
  | cons m t ih =>
    by_cases hv : scoreIssetB m = true
    · by_cases hb : p m = true <;>
        simp [List.filter_cons, hv, hb, ih]
    · have hb : p m = false := by
        cases hbb : p m
        · rfl
        · exact absurd (himp m hbb) (by simp [hv])
      simp [List.filter_cons, hv, hb, ih]

/-- Guard for the amended C3: the record's present `score.home` and
`score.away` values (if any) are integers, not strings. -/
def intScoresB (m : MatchRecord) : Bool :=
  (match scoreGet m "home" with
   | some (.str _) => false
   | _ => true) &&
  (match scoreGet m "away" with
   | some (.str _) => false
   | _ => true)

/-- On integer-valued scores the uncast line-70 test and the `(int)`-cast
line-412 test agree. -/
theorem intScores_loose_eq_int (m : MatchRecord) (h : intScoresB m = true) :
    bothScoredLooseB m = bothScoredIntB m := by
  unfold intScoresB at h
  unfold bothScoredLooseB bothScoredIntB
  cases hh : scoreGet m "home" with
  | none => rfl
  | some x =>
    cases ha : scoreGet m "away" with
    | none => rfl
    | some y =>
      rw [hh, ha] at h
      cases x with
      | str sx => simp at h
      | int nx =>
        cases y with
        | str sy => simp at h
        | int ny => simp [phpGtZero, phpIntCast]

/-- On integer-valued scores the code's `isset` test coincides with the
glossary's score-valid. -/
theorem intScores_isset_eq_valid (m : MatchRecord) (h : intScoresB m = true) :
    scoreIssetB m = scoreValidB m := by
  unfold intScoresB at h
  unfold scoreIssetB scoreValidB
  cases hh : scoreGet m "home" with
  | none => rfl
  | some x =>
    cases ha : scoreGet m "away" with
    | none => simp
    | some y =>
      rw [hh, ha] at h
      cases x with
      | str sx => simp at h
      | int nx =>
        cases y with
        | str sy => simp at h
        | int ny => simp [svalIsNumeric]

/-! ## Claim theorems -/

/-- Claim C9: filtering with an empty parameter mapping is the identity —
for every record sequence, `filterMatches ms []` returns the very same
sequence (same elements, order and count). -/
theorem c9_filter_empty_identity (ms : List MatchRecord) :
    filterMatches ms [] = .ok ms := rfl

/-- Claim C2: on the dataset [A vs B 2-1, B vs A 0-0, A vs B 1-1] with query
`home_team=A&away_team=B`, the response's `team_analysis.matches_count` is 2,
and the exact-orientation head-to-head subset the prediction uses (built from
the sorted filtered list) also has size 2. -/
theorem c2_h2h_counts :
    ((processRequest c2data c2query).toOption.bind (fun r => r.team_analysis)).map
        (fun t => t.matches_count) = some 2
  ∧ ((filterMatches c2data (validateAndSanitizeParams c2query)).toOption.map
        (fun f => (h2hMatches "A" "B" (sortMatchesByDate f)).length)) = some 2 := by
  decide

/-- Claim C1 (code bug): with raw parameters `page_size=1000, page=0`, the
sanitizer stores `page`/`page_size` as PHP ints, and on any nonempty dataset
`filterMatches` hands those ints to the `string`-typed `matchParameter`
under `strict_types=1` — an uncaught `TypeError`, so no response at all is
produced (while the empty dataset never invokes the callback and does show
`page = 1`, `page_size = 500`). -/
theorem c1_pagination_typeerror :
    validateAndSanitizeParams [("page_size", "1000"), ("page", "0")]
      = [("page_size", PValue.int 1000), ("page", PValue.int 0)]
  ∧ (processRequest [recAB21] [("page_size", "1000"), ("page", "0")]).toOption = none
  ∧ (processRequest [] [("page_size", "1000"), ("page", "0")]).toOption.map
      (fun r => (r.page, r.page_size, r.matchesSlice.length)) = some (1, 500, 0) := by
  decide

/-- Claim C7 is false as stated: a non-empty, non-integer `page` value does
not leave the sanitized mapping without the key — the key stays present,
bound to `null`. -/
theorem c7_counterexample :
    (validateAndSanitizeParams [("page", "abc")]).map Prod.fst = ["page"]
  ∧ phpValidateInt "abc" = none := by
  decide

/-- Claim C7 (amended): a non-empty, non-integer `page`/`page_size` value
keeps the key in the sanitized mapping with value `null`; because the
pagination step's presence check is `isset` (false on `null`), the defaults
`page = 1` and `page_size = 100` still apply at that step. -/
theorem c7_null_not_dropped (v : String) (hv : v ≠ "") (hbad : phpValidateInt v = none) :
    validateAndSanitizeParams [("page", v)] = [("page", PValue.null)]
  ∧ computedPage (validateAndSanitizeParams [("page", v)]) = 1
  ∧ validateAndSanitizeParams [("page_size", v)] = [("page_size", PValue.null)]
  ∧ computedPageSize (validateAndSanitizeParams [("page_size", v)]) = 100 := by
  simp only [validateAndSanitizeParams, List.filterMap_cons, List.filterMap_nil,
    sanitizePair, hv, hbad, if_false, ite_false]
  simp [computedPage, computedPageSize, List.lookup]

/-- Witness for the amended C7 at the concrete value `"abc"`. -/
theorem c7_null_not_dropped_witness :
    validateAndSanitizeParams [("page", "abc")] = [("page", PValue.null)]
  ∧ computedPage (validateAndSanitizeParams [("page", "abc")]) = 1
  ∧ validateAndSanitizeParams [("page_size", "abc")] = [("page_size", PValue.null)]
  ∧ computedPageSize (validateAndSanitizeParams [("page_size", "abc")]) = 100 :=
  c7_null_not_dropped "abc" (by decide) (by decide)

/-- Claim C4 is false as stated: a record dated 1969-01-01 parses to a
negative timestamp, while a missing date is treated as the int `0` (not the
epoch minimum), so the missing-date record sorts **before** the
parsable-dated one. -/
theorem c4_counterexample :
    rec1969.date = some "1969-01-01"
  ∧ (strtotimeM "1969-01-01").isSome = true
  ∧ recNoDate.date = none
  ∧ sortMatchesByDate [rec1969, recNoDate] = [recNoDate, rec1969] := by
  decide

/-- Membership in a stable comparator insertion: the new element or an old
one. -/
theorem mem_insertCmp {α : Type} (c : α → α → Int) (x a : α) :
    ∀ l : List α, a ∈ insertCmp c x l → a = x ∨ a ∈ l := by
  intro l
  induction l with
  | nil => intro h; simp [insertCmp] at h; exact Or.inl h
  | cons y ys ih =>
    intro h
    by_cases hc : c x y < 0
    · simp [insertCmp, hc] at h
      rcases h with h | h | h
      · exact Or.inl h
      · exact Or.inr (by simp [h])
      · exact Or.inr (by simp [h])
    · simp [insertCmp, hc] at h
      rcases h with h | h
      · exact Or.inr (by simp [h])
      · rcases ih h with h' | h'
        · exact Or.inl h'
        · exact Or.inr (by simp [h'])

/-- Inserting preserves a pairwise invariant `Q`, provided the comparator
forces `Q` across the insertion point in both directions. -/
theorem pairwise_insertCmp {α : Type} (c : α → α → Int) (Q : α → α → Prop)
    (hA : ∀ x y, ¬c x y < 0 → Q y x)
    (hB : ∀ x y, c x y < 0 → Q x y)
    (hC : ∀ x y z, c x y < 0 → Q y z → Q x z)
    (x : α) : ∀ l : List α, l.Pairwise Q → (insertCmp c x l).Pairwise Q := by
  intro l
  induction l with
  | nil => intro _; simp [insertCmp]
  | cons y ys ih =>
    intro hp
    rcases List.pairwise_cons.mp hp with ⟨hy, hys⟩
    by_cases hc : c x y < 0
    · have hxy : Q x y := hB x y hc
      have hxz : ∀ z ∈ ys, Q x z := fun z hz => hC x y z hc (hy z hz)
      simp only [insertCmp, hc, if_pos]
      exact List.pairwise_cons.mpr
        ⟨fun z hz => by
          rcases List.mem_cons.mp hz with h | h
          · exact h ▸ hxy
          · exact hxz z h, hp⟩
    · simp only [insertCmp, hc, if_neg, ite_false]
      refine List.pairwise_cons.mpr ⟨fun z hz => ?_, ih hys⟩
      rcases mem_insertCmp c x z ys hz with h | h
      · exact h ▸ hA x y hc
      · exact hy z h

/-- The comparator sort preserves the pairwise invariant on every input. -/
theorem pairwise_sortCmp {α : Type} (c : α → α → Int) (Q : α → α → Prop)
    (hA : ∀ x y, ¬c x y < 0 → Q y x)
    (hB : ∀ x y, c x y < 0 → Q x y)
    (hC : ∀ x y z, c x y < 0 → Q y z → Q x z)
    (l : List α) : (sortCmp c l).Pairwise Q := by
  have aux : ∀ (rest : List α) (acc : List α), acc.Pairwise Q →
      (rest.foldl (fun acc x => insertCmp c x acc) acc).Pairwise Q := by
    intro rest
    induction rest with
    | nil => intro acc h; simpa using h
    | cons r rs ih =>
      intro acc h
      exact ih (insertCmp c r acc) (pairwise_insertCmp c Q hA hB hC r acc h)
  exact aux l [] List.Pairwise.nil

/-- Record whose date field parses to a strictly positive timestamp. -/
def posDateB (m : MatchRecord) : Bool :=
  match m.date with
  | some s => match strtotimeM s with
    | some n => decide (0 < n)
    | none => false
  | none => false

/-- Record with a missing or unparsable date (the records the spec says
should sink to the end). -/
def sinkDateB (m : MatchRecord) : Bool :=
  match m.date with
  | some s => (strtotimeM s).isNone
  | none => true

/-- The invariant the PHP comparator actually maintains: anything placed
before a positively-dated record is itself positively dated, at least as
late. -/
def dateOrderInv (a b : MatchRecord) : Prop :=
  ∀ n : Int, 0 < n → dateKey b = .ts n → ∃ k : Int, n ≤ k ∧ dateKey a = .ts k

/-- Claim C4 (amended): after the date sort, every record whose date parses
to a strictly positive timestamp precedes every record with a missing or
unparsable date.  (Records dated at or before the Unix epoch can interleave
with missing-date records, because the comparator treats a missing date as
the int `0` and an unparsable one as PHP `false`, not as the epoch
minimum.) -/
theorem c4_pos_dates_precede_sink (l : List MatchRecord) :
    (sortMatchesByDate l).Pairwise
      (fun a b => posDateB b = true → sinkDateB a = false) := by
  have hmain : (sortMatchesByDate l).Pairwise dateOrderInv := by
    refine pairwise_sortCmp dateCmp dateOrderInv ?_ ?_ ?_ l
    · intro x y hxy n hn hkx
      unfold dateCmp at hxy
      rw [hkx] at hxy
      cases hky : dateKey y with
      | ts m =>
        rw [hky] at hxy
        unfold phpSpaceship at hxy
        by_cases hmn : m < n
        · simp [hmn] at hxy
        · exact ⟨m, le_of_not_lt hmn, rfl⟩
      | fls =>
        rw [hky] at hxy
        unfold phpSpaceship at hxy
        have : n ≠ 0 := ne_of_gt hn
        simp [this] at hxy
    · intro x y hxy n hn hky
      unfold dateCmp at hxy
      rw [hky] at hxy
      cases hkx : dateKey x with
      | ts m =>
        rw [hkx] at hxy
        unfold phpSpaceship at hxy
        by_cases hnm : n < m
        · exact ⟨m, le_of_lt hnm, rfl⟩
        · by_cases hmn : m < n <;> simp [hnm, hmn] at hxy
      | fls =>
        rw [hkx] at hxy
        unfold phpSpaceship at hxy
        have : n ≠ 0 := ne_of_gt hn
        simp [this] at hxy
    · intro x y z hxy hyz n hn hkz
      rcases hyz n hn hkz with ⟨k, hk, hky⟩
      have hk0 : 0 < k := lt_of_lt_of_le hn hk
      unfold dateCmp at hxy
      rw [hky] at hxy
      cases hkx : dateKey x with
      | ts m =>
        rw [hkx] at hxy
        unfold phpSpaceship at hxy
        by_cases hkm : k < m
        · exact ⟨m, le_trans hk (le_of_lt hkm), rfl⟩
        · by_cases hmk : m < k <;> simp [hkm, hmk] at hxy
      | fls =>
        rw [hkx] at hxy
        unfold phpSpaceship at hxy
        have : k ≠ 0 := ne_of_gt hk0
        simp [this] at hxy
  refine hmain.imp ?_
  intro a b hab hpos
  have hb : ∃ n : Int, 0 < n ∧ dateKey b = .ts n := by
    obtain ⟨bh, ba, bd, bs, bo⟩ := b
    cases bd with
    | none => simp [posDateB] at hpos
    | some s =>
      simp only [posDateB] at hpos
      cases ht : strtotimeM s with
      | none => rw [ht] at hpos; simp at hpos
      | some n =>
        rw [ht] at hpos
        simp at hpos
        exact ⟨n, hpos, by simp [dateKey, ht]⟩
  rcases hb with ⟨n, hn, hkb⟩
  rcases hab n hn hkb with ⟨k, hk, hka⟩
  have hk0 : 0 < k := lt_of_lt_of_le hn hk
  obtain ⟨ah, aa, ad, asc, ao⟩ := a
  cases ad with
  | none =>
    exfalso
    simp [dateKey] at hka
    omega
  | some s =>
    simp only [dateKey] at hka
    cases ht : strtotimeM s with
    | none => rw [ht] at hka; simp at hka
    | some m => simp [sinkDateB, ht]

/-- Witness instantiating the amended C4 on a concrete mixed list. -/
theorem c4_pos_dates_precede_sink_witness :
    (sortMatchesByDate [recNoDate, recAB21, rec1969]).Pairwise
      (fun a b => posDateB b = true → sinkDateB a = false) :=
  c4_pos_dates_precede_sink [recNoDate, recAB21, rec1969]

/-- Claim C3 is false as stated: line 70 of the source tests the score
values **without** an `(int)` cast, so a present non-numeric
`score.home = 'abc'` — score-invalid per the spec glossary — counts toward
the percentage's numerator (PHP 8 stringifies the `0` and `'abc' > '0'`
holds), while line 412's `(int)` cast zeroes it.  On
`[{home:'abc', away:2}, {1-1}]` the percentage is 100 and the probability
50, falsifying the claimed `≤` although the score-invalid record coexists
with a both-scored score-valid record. -/
theorem c3_counterexample :
    scoreValidB recStrScore = false
  ∧ scoreValidB recAB11 = true
  ∧ bothScoredIntB recAB11 = true
  ∧ phpGtZero (ScoreVal.str "abc") = true
  ∧ calculateBothTeamsScoredPercentage [recStrScore, recAB11] = 100
  ∧ calculateBothTeamsToScoreProb [recStrScore, recAB11] = 50
  ∧ ¬(calculateBothTeamsScoredPercentage [recStrScore, recAB11]
        ≤ calculateBothTeamsToScoreProb [recStrScore, recAB11]) := by
  have hfl : List.filter bothScoredLooseB [recStrScore, recAB11]
      = [recStrScore, recAB11] := by decide
  have hfi : List.filter scoreIssetB [recStrScore, recAB11]
      = [recStrScore, recAB11] := by decide
  have hfb : List.filter bothScoredIntB [recStrScore, recAB11] = [recAB11] := by decide
  have hperc : calculateBothTeamsScoredPercentage [recStrScore, recAB11] = 100 := by
    unfold calculateBothTeamsScoredPercentage
    rw [if_neg (by decide : ¬(List.length [recStrScore, recAB11] = 0)), hfl]
    norm_num [phpRound2]
  have hprob : calculateBothTeamsToScoreProb [recStrScore, recAB11] = 50 := by
    unfold calculateBothTeamsToScoreProb
    rw [if_neg (by decide : ¬(List.isEmpty [recStrScore, recAB11] = true))]
    dsimp only
    rw [hfi, if_neg (by decide : ¬(List.isEmpty [recStrScore, recAB11] = true)), hfb]
    norm_num [phpRound2]
  refine ⟨by decide, by decide, by decide, by decide, hperc, hprob, ?_⟩
  rw [hperc, hprob]
  norm_num

/-- Claim C3 (amended): on sequences whose present `score.home` and
`score.away` values are integers — where the uncast line-70 test, the
`(int)`-cast line-412 test, the code's `isset` check and the glossary's
score-validity all coincide — `calculateBothTeamsScoredPercentage` divides
the both-scored count by the **full** list length while
`calculateBothTeamsToScoreProb` divides it by the both-fields-set count;
hence, on any such set whose score-invalid records coexist with a
both-scored score-valid record, the former is at most the latter; and with
no both-fields-set record the former still divides (a zero numerator) by
the full count while the latter returns 0.  (Without the integer guard the
claim fails: see the counterexample above.) -/
theorem c3_denominator_asymmetry (ms : List MatchRecord)
    (hints : ∀ m ∈ ms, intScoresB m = true) :
    (ms ≠ [] →
      calculateBothTeamsScoredPercentage ms
        = phpRound2 ((((ms.filter bothScoredLooseB).length : Rat)
            / (ms.length : Rat)) * 100))
  ∧ (ms.filter scoreIssetB ≠ [] →
      calculateBothTeamsToScoreProb ms
        = phpRound2 ((((ms.filter bothScoredIntB).length : Rat)
            / ((ms.filter scoreIssetB).length : Rat)) * 100))
  ∧ (((∃ m ∈ ms, scoreValidB m = false) → ∃ m ∈ ms, bothScoredIntB m = true) →
      calculateBothTeamsScoredPercentage ms ≤ calculateBothTeamsToScoreProb ms)
  ∧ (ms.filter scoreIssetB = [] → ms ≠ [] →
      (ms.filter bothScoredLooseB).length = 0
      ∧ calculateBothTeamsScoredPercentage ms
          = phpRound2 ((((ms.filter bothScoredLooseB).length : Rat)
              / (ms.length : Rat)) * 100)
      ∧ calculateBothTeamsToScoreProb ms = 0) := by
  have hcong : ms.filter bothScoredLooseB = ms.filter bothScoredIntB :=
    List.filter_congr (fun m hm => by
      rw [intScores_loose_eq_int m (hints m hm)])
  have hperc : ms ≠ [] →
      calculateBothTeamsScoredPercentage ms
        = phpRound2 ((((ms.filter bothScoredLooseB).length : Rat)
            / (ms.length : Rat)) * 100) := by
    intro hne
    unfold calculateBothTeamsScoredPercentage
    rw [if_neg (by simpa [List.length_eq_zero] using hne)]
  have hprob : ms.filter scoreIssetB ≠ [] →
      calculateBothTeamsToScoreProb ms
        = phpRound2 ((((ms.filter bothScoredIntB).length : Rat)
            / ((ms.filter scoreIssetB).length : Rat)) * 100) := by
    intro hvne
    have hne : ms ≠ [] := by
      intro h
      rw [h] at hvne
      exact hvne rfl
    unfold calculateBothTeamsToScoreProb
    rw [if_neg (by simpa [List.isEmpty_iff] using hne)]
    simp only [List.isEmpty_iff]
    rw [if_neg hvne, filter_isset_sub bothScoredIntB bothScoredInt_imp_isset]
  refine ⟨hperc, hprob, ?_, ?_⟩
  · intro _
    by_cases hms : ms = []
    · subst hms
      simp [calculateBothTeamsScoredPercentage, calculateBothTeamsToScoreProb]
    · by_cases hv : ms.filter scoreIssetB = []
      · have hb0 : ms.filter bothScoredLooseB = [] := by
          rw [← filter_isset_sub bothScoredLooseB bothScoredLoose_imp_isset, hv]
          rfl
        rw [hperc hms, hb0]
        unfold calculateBothTeamsToScoreProb
        rw [if_neg (by simpa [List.isEmpty_iff] using hms)]
        simp only [List.isEmpty_iff]
        rw [if_pos hv]
        simp [phpRound2_zero]
      · rw [hperc hms, hprob hv, hcong]
        have hn : 0 < ms.length := List.length_pos.mpr hms
        have hvpos : 0 < (ms.filter scoreIssetB).length := List.length_pos.mpr hv
        have hvn : (ms.filter scoreIssetB).length ≤ ms.length := List.length_filter_le _ _
        set b : Rat := ((ms.filter bothScoredIntB).length : Rat) with hbdef
        have hb0 : 0 ≤ b := by positivity
        have hVQ : (0 : Rat) < ((ms.filter scoreIssetB).length : Rat) := by
          exact_mod_cast hvpos
        have hNQ : ((ms.filter scoreIssetB).length : Rat) ≤ (ms.length : Rat) := by
          exact_mod_cast hvn
        refine phpRound2_mono _ _ (by positivity) ?_
        have : b / (ms.length : Rat) ≤ b / ((ms.filter scoreIssetB).length : Rat) := by
          gcongr
        nlinarith [this]
  · intro hv hne
    have hb0 : ms.filter bothScoredLooseB = [] := by
      rw [← filter_isset_sub bothScoredLooseB bothScoredLoose_imp_isset, hv]
      rfl
    refine ⟨by rw [hb0]; rfl, hperc hne, ?_⟩
    unfold calculateBothTeamsToScoreProb
    rw [if_neg (by simpa [List.isEmpty_iff] using hne)]
    simp only [List.isEmpty_iff]
    rw [if_pos hv]

/-- Witness for the amended C3: one both-scored valid record plus one
score-invalid record (integer scores only) for the inequality, and a single
half-scored record for the no-set-scores case. -/
theorem c3_denominator_asymmetry_witness :
    calculateBothTeamsScoredPercentage [recAB21, recHalfScore]
      ≤ calculateBothTeamsToScoreProb [recAB21, recHalfScore]
  ∧ calculateBothTeamsToScoreProb [recHalfScore] = 0 :=
  ⟨(c3_denominator_asymmetry [recAB21, recHalfScore] (by decide)).2.2.1
      (fun _ => ⟨recAB21, by decide, by decide⟩),
   ((c3_denominator_asymmetry [recHalfScore] (by decide)).2.2.2
      (by decide) (by decide)).2.2⟩


/-- Claim C5: for every prediction a winner can take (`home`, `draw`,
`away`, or `unknown`), the three `calculateWinProbability` values sum to 1
within the rounding epsilon `0.01`; an unknown winner yields
`round(1/3, 2)` for every outcome, the predicted outcome receives the
confidence itself, and every other outcome receives
`round((1 - confidence)/2, 2)`. -/
theorem c5_win_probabilities (w : String) (c : Rat)
    (hw : w = "home" ∨ w = "draw" ∨ w = "away" ∨ w = "unknown") :
    |calculateWinProbability ⟨w, c⟩ "home" + calculateWinProbability ⟨w, c⟩ "draw"
        + calculateWinProbability ⟨w, c⟩ "away" - 1| ≤ 1/100
  ∧ (w = "unknown" → ∀ o : String, calculateWinProbability ⟨w, c⟩ o = phpRound2 (1/3))
  ∧ (w ≠ "unknown" → calculateWinProbability ⟨w, c⟩ w = c)
  ∧ (∀ o : String, w ≠ "unknown" → o ≠ w →
      calculateWinProbability ⟨w, c⟩ o = phpRound2 ((1 - c) / 2)) := by
  have hthird : phpRound2 (1/3) = 33/100 := by norm_num [phpRound2]
  have hsum : ∀ w' : String, w' = "home" ∨ w' = "draw" ∨ w' = "away" →
      |calculateWinProbability ⟨w', c⟩ "home" + calculateWinProbability ⟨w', c⟩ "draw"
        + calculateWinProbability ⟨w', c⟩ "away" - 1| ≤ 1/100 := by
    intro w' hw'
    have habs := abs_phpRound2_sub ((1 - c) / 2)
    rw [abs_le] at habs
    rcases hw' with h | h | h <;> subst h <;>
      · unfold calculateWinProbability
        simp only [ne_eq, String.reduceEq, if_false, if_true, ite_false, ite_true,
          reduceIte]
        rw [abs_le]
        constructor <;> linarith [habs.1, habs.2]
  refine ⟨?_, ?_, ?_, ?_⟩
  · rcases hw with h | h | h | h
    · exact hsum w (Or.inl h)
    · exact hsum w (Or.inr (Or.inl h))
    · exact hsum w (Or.inr (Or.inr h))
    · subst h
      unfold calculateWinProbability
      simp only [if_true, reduceIte]
      rw [hthird, abs_le]
      constructor <;> norm_num
  · intro h o
    subst h
    simp [calculateWinProbability]
  · intro h
    unfold calculateWinProbability
    rw [if_neg h, if_pos rfl]
  · intro o h ho
    unfold calculateWinProbability
    rw [if_neg h, if_neg (fun e => ho e.symm)]

/-- Witness for C5 at winner `home`, confidence `1/2`:
`0.5 + 0.25 + 0.25 = 1`. -/
theorem c5_win_probabilities_witness :
    |calculateWinProbability ⟨"home", 1/2⟩ "home"
        + calculateWinProbability ⟨"home", 1/2⟩ "draw"
        + calculateWinProbability ⟨"home", 1/2⟩ "away" - 1| ≤ 1/100 :=
  (c5_win_probabilities "home" (1/2) (Or.inl rfl)).1

/-- Claim C6 is false as stated: an exact-orientation head-to-head record
whose scores are present but non-numeric (`home 'abc'`, `away 'x'`) contains
no score-valid record per the spec glossary, yet it passes the code's
`isset`-only filter (lines 434-436) and the `(int)` casts make both scores 0,
so `predictWinner` returns `('draw', 1.0)`, not `(unknown, 0.0)`. -/
theorem c6_counterexample :
    scoreValidB recBadScore = false
  ∧ (h2hMatches "A" "B" [recBadScore]).filter scoreValidB = []
  ∧ (predictWinner "A" "B" [recBadScore]).winner = "draw"
  ∧ (predictWinner "A" "B" [recBadScore]).confidence = 1 := by
  refine ⟨by decide, by decide, by decide, ?_⟩
  have hc : (predictWinner "A" "B" [recBadScore]).confidence
      = phpRound2 (((1 : Nat) : Rat) / ((1 : Nat) : Rat)) := rfl
  rw [hc]
  norm_num [phpRound2]

/-- Claim C6 (amended): `predictWinner` only ever returns a winner among
`home`, `away`, `draw`, `unknown`, its confidence lies in `[0, 1]`, and it
returns exactly `(unknown, 0)` whenever a team name is empty, the list is
empty, or the exact-orientation head-to-head subset has no record with
**both score fields set** (the code's `isset` test; a record with present
but non-numeric scores counts as set — see the counterexample above). -/
theorem c6_predict_winner_range (h a : String) (ms : List MatchRecord) :
    (predictWinner h a ms).winner ∈ (["home", "away", "draw", "unknown"] : List String)
  ∧ 0 ≤ (predictWinner h a ms).confidence
  ∧ (predictWinner h a ms).confidence ≤ 1
  ∧ ((h = "" ∨ a = "" ∨ ms = [] ∨ (h2hMatches h a ms).filter scoreIssetB = []) →
      predictWinner h a ms = ⟨"unknown", 0⟩) := by
  unfold predictWinner
  by_cases hg : (phpEmpty h || phpEmpty a || ms.isEmpty) = true
  · rw [if_pos hg]
    exact ⟨by decide, le_refl 0, by norm_num, fun _ => rfl⟩
  · rw [if_neg hg]
    by_cases hv : ((h2hMatches h a ms).filter scoreIssetB).isEmpty = true
    · rw [if_pos hv]
      exact ⟨by decide, le_refl 0, by norm_num, fun _ => rfl⟩
    · rw [if_neg hv]
      have himp : (h = "" ∨ a = "" ∨ ms = []
          ∨ (h2hMatches h a ms).filter scoreIssetB = []) → False := by
        intro hyp
        rcases hyp with h1 | h1 | h1 | h1
        · exact hg (by simp [phpEmpty, h1])
        · exact hg (by simp [phpEmpty, h1])
        · exact hg (by simp [h1])
        · exact hv (by simp [h1])
      have hlen : 0 < ((h2hMatches h a ms).filter scoreIssetB).length := by
        rcases List.isEmpty_iff.not.mp hv with hne
        exact List.length_pos.mpr (by simpa [List.isEmpty_iff] using hv)
      have hconf : ∀ sub : List MatchRecord,
          sub.length ≤ ((h2hMatches h a ms).filter scoreIssetB).length →
          0 ≤ phpRound2 ((sub.length : Rat)
              / (((h2hMatches h a ms).filter scoreIssetB).length : Rat))
          ∧ phpRound2 ((sub.length : Rat)
              / (((h2hMatches h a ms).filter scoreIssetB).length : Rat)) ≤ 1 := by
        intro sub hle
        have hl : (0 : Rat) < (((h2hMatches h a ms).filter scoreIssetB).length : Rat) := by
          exact_mod_cast hlen
        have hx0 : (0 : Rat) ≤ (sub.length : Rat)
            / (((h2hMatches h a ms).filter scoreIssetB).length : Rat) := by positivity
        have hx1 : (sub.length : Rat)
            / (((h2hMatches h a ms).filter scoreIssetB).length : Rat) ≤ 1 := by
          rw [div_le_one hl]
          exact_mod_cast hle
        exact ⟨phpRound2_nonneg _ hx0, phpRound2_le_one _ hx0 hx1⟩
      dsimp only
      split_ifs with h1 h2 <;>
        exact ⟨by simp, (hconf _ (List.length_filter_le _ _)).1,
          (hconf _ (List.length_filter_le _ _)).2, fun hyp => absurd hyp himp⟩

/-- Witness for C6: an empty home-team name forces `(unknown, 0)`. -/
theorem c6_predict_winner_range_witness :
    predictWinner "" "B" [recAB21] = ⟨"unknown", 0⟩ :=
  (c6_predict_winner_range "" "B" [recAB21]).2.2.2 (Or.inl rfl)

/-- Passing the conjunction over an extended parameter list entails passing
it over the original prefix (the `foreach` short-circuits left to right, and
the added pair sits at the end). -/
theorem runPredicates_append_ok (m : MatchRecord) (kv : String × PValue) :
    ∀ P : List (String × PValue),
      runPredicates m (P ++ [kv]) = .ok true → runPredicates m P = .ok true := by
  intro P
  induction P with
  | nil => intro _; rfl
  | cons p rest ih =>
    intro hp
    obtain ⟨k, v⟩ := p
    rw [List.cons_append] at hp
    unfold runPredicates at hp ⊢
    cases hmp : matchParameter m k v with
    | error e => rw [hmp] at hp; simp at hp
    | ok b =>
      rw [hmp] at hp
      cases b
      · simp at hp
      · exact ih hp

/-- Every record a successful filter run returns comes from its input. -/
theorem filterMatchesAux_subset (Q : List (String × PValue)) :
    ∀ (ms r : List MatchRecord), filterMatchesAux Q ms = .ok r → ∀ x ∈ r, x ∈ ms := by
  intro ms
  induction ms with
  | nil =>
    intro r h x hx
    unfold filterMatchesAux at h
    simp at h
    subst h
    simp at hx
  | cons m t ih =>
    intro r h x hx
    unfold filterMatchesAux at h
    cases hrp : runPredicates m Q with
    | error e => rw [hrp] at h; simp at h
    | ok b =>
      rw [hrp] at h
      cases hrec : filterMatchesAux Q t with
      | error e => rw [hrec] at h; simp at h
      | ok rt =>
        rw [hrec] at h
        simp at h
        subst h
        cases b with
        | false =>
          simp at hx
          exact List.mem_cons_of_mem m (ih rt hrec x hx)
        | true =>
          simp at hx
          rcases hx with hx | hx
          · simp [hx]
          · exact List.mem_cons_of_mem m (ih rt hrec x hx)

/-- If passing the `Q`-predicates implies passing the `P`-predicates, a
successful `Q`-filter output is contained in the `P`-filter output. -/
theorem filterMatchesAux_mono (P Q : List (String × PValue))
    (himp : ∀ m : MatchRecord,
      runPredicates m Q = .ok true → runPredicates m P = .ok true) :
    ∀ (ms r1 r2 : List MatchRecord), filterMatchesAux P ms = .ok r1 →
      filterMatchesAux Q ms = .ok r2 → ∀ x ∈ r2, x ∈ r1 := by
  intro ms
  induction ms with
  | nil =>
    intro r1 r2 h1 h2 x hx
    unfold filterMatchesAux at h2
    simp at h2
    subst h2
    simp at hx
  | cons m t ih =>
    intro r1 r2 h1 h2 x hx
    unfold filterMatchesAux at h1 h2
    cases hq : runPredicates m Q with
    | error e => rw [hq] at h2; simp at h2
    | ok bq =>
      rw [hq] at h2
      cases hrq : filterMatchesAux Q t with
      | error e => rw [hrq] at h2; simp at h2
      | ok rq =>
        rw [hrq] at h2
        simp at h2
        subst h2
        cases hp : runPredicates m P with
        | error e => rw [hp] at h1; simp at h1
        | ok bp =>
          rw [hp] at h1
          cases hrp : filterMatchesAux P t with
          | error e => rw [hrp] at h1; simp at h1
          | ok rp =>
            rw [hrp] at h1
            simp at h1
            subst h1
            cases bq with
            | false =>
              simp at hx
              have hxp := ih rp rq hrp hrq x hx
              cases bp <;> simp [hxp]
            | true =>
              simp at hx
              rcases hx with hx | hx
              · have hPtrue : runPredicates m P = .ok true := himp m hq
                rw [hp] at hPtrue
                simp at hPtrue
                subst hPtrue
                simp [hx]
              · have hxp := ih rp rq hrp hrq x hx
                cases bp <;> simp [hxp]

/-- Claim C8: filtering is monotonic in the parameter mapping — appending a
fresh key/value pair can only shrink (or keep) the successful result set. -/
theorem c8_filter_monotonic (ms : List MatchRecord) (params : List (String × PValue))
    (k : String) (v : PValue) (hk : k ∉ params.map Prod.fst)
    (r1 r2 : List MatchRecord)
    (h1 : filterMatches ms params = .ok r1)
    (h2 : filterMatches ms (params ++ [(k, v)]) = .ok r2) :
    ∀ m ∈ r2, m ∈ r1 := by
  by_cases hp : params.isEmpty
  · have hpe : params = [] := by simpa [List.isEmpty_iff] using hp
    subst hpe
    unfold filterMatches at h1 h2
    simp at h1
    subst h1
    simp at h2
    exact filterMatchesAux_subset [(k, v)] ms r2 h2
  · have hne : ¬(params ++ [(k, v)]).isEmpty = true := by
      simp [List.isEmpty_iff]
    unfold filterMatches at h1 h2
    rw [if_neg hp] at h1
    rw [if_neg hne] at h2
    exact filterMatchesAux_mono params (params ++ [(k, v)])
      (fun m => runPredicates_append_ok m (k, v) params) ms r1 r2 h1 h2

/-- Witness for C8: extending a `team=A` filter by `away_team=B` on a
one-record list. -/
theorem c8_filter_monotonic_witness : recAB21 ∈ [recAB21] :=
  c8_filter_monotonic [recAB21] [("team", PValue.str "A")] "away_team" (PValue.str "B")
    (by decide) [recAB21] [recAB21] (by rfl) (by rfl) recAB21 (by simp)

/-- Escaping one character yields at least one character. -/
theorem escChar_len_ge (c : Char) : 1 ≤ (escChar c).length := by
  unfold escChar
  split_ifs <;> first | decide | simp

/-- Escaping an HTML-special character yields at least two characters. -/
theorem escChar_len_two (c : Char) (h : isHtmlSpecialB c = true) :
    2 ≤ (escChar c).length := by
  unfold isHtmlSpecialB at h
  unfold escChar
  split_ifs with h1 h2 h3 h4 h5 <;> first
    | decide
    | · exfalso
        simp [h1, h2, h3, h4, h5] at h

/-- Character-wise escaping never shortens a string. -/
theorem flatMap_escChar_len_ge :
    ∀ l : List Char, l.length ≤ (l.flatMap escChar).length := by
  intro l
  induction l with
  | nil => simp
  | cons c t ih =>
    rw [List.flatMap_cons, List.length_append, List.length_cons]
    have := escChar_len_ge c
    omega

/-- Escaping a string that contains an HTML-special character strictly
lengthens it. -/
theorem flatMap_escChar_len_lt (l : List Char) (h : l.any isHtmlSpecialB = true) :
    l.length < (l.flatMap escChar).length := by
  induction l with
  | nil => simp at h
  | cons c t ih =>
    rw [List.flatMap_cons, List.length_append, List.length_cons]
    rcases List.any_eq_true.mp h with ⟨x, hx, hxs⟩
    rcases List.mem_cons.mp hx with hc | hc
    · have h2 := escChar_len_two c (hc ▸ hxs)
      have := flatMap_escChar_len_ge t
      omega
    · have := ih (List.any_eq_true.mpr ⟨x, hc, hxs⟩)
      have h1 := escChar_len_ge c
      omega

/-- Case-insensitively equal strings have equal length. -/
theorem strcasecmpEq_length (a b : String) (h : strcasecmpEq a b = true) :
    a.data.length = b.data.length := by
  unfold strcasecmpEq at h
  have he : a.data.map Char.toLower = b.data.map Char.toLower := by
    exact_mod_cast beq_iff_eq.mp h
  have := congrArg List.length he
  simpa using this

/-- A field that case-insensitively equals the raw value can never equal the
HTML-escaped value when the raw value contains a special character: the
escaped string is strictly longer. -/
theorem escaped_breaks_match (s v : String) (hs : strcasecmpEq s v = true)
    (hv : containsHtmlSpecialB v = true) :
    strcasecmpEq s (htmlspecialchars v) = false := by
  cases hx : strcasecmpEq s (htmlspecialchars v) with
  | false => rfl
  | true =>
    exfalso
    have h1 : s.data.length = v.data.length := strcasecmpEq_length s v hs
    have h2 : s.data.length = (htmlspecialchars v).data.length :=
      strcasecmpEq_length s (htmlspecialchars v) hx
    have h3 : (htmlspecialchars v).data = v.data.flatMap escChar := rfl
    have h4 : v.data.length < (v.data.flatMap escChar).length :=
      flatMap_escChar_len_lt v.data hv
    rw [h3] at h2
    omega

/-- Claim C10: values of parameters handled by the sanitizer's generic
fallback (`team`, `home_team`, `away_team`, and any other non-special key)
are HTML-escaped before filtering, so whenever the raw value contains one of
the five escaped characters, a record whose compared field case-insensitively
equals the raw value fails the corresponding filter predicate. -/
theorem c10_escaping_breaks_filter (v : String)
    (hv : v ≠ "") (hs : containsHtmlSpecialB v = true) :
    (∀ k : String, k ≠ "page" → k ≠ "page_size" → k ≠ "date" →
        k ≠ "both_teams_scored" → startsWithScore k = false →
        sanitizePair k v = some (k, PValue.str (htmlspecialchars v)))
  ∧ (∀ m : MatchRecord, ∀ t : String, m.home_team = some t →
        strcasecmpEq t v = true → matchesHomeTeam m (htmlspecialchars v) = false)
  ∧ (∀ m : MatchRecord, ∀ t : String, m.away_team = some t →
        strcasecmpEq t v = true → matchesAwayTeam m (htmlspecialchars v) = false)
  ∧ (∀ m : MatchRecord, ∀ th ta : String, m.home_team = some th →
        m.away_team = some ta → strcasecmpEq th v = true → strcasecmpEq ta v = true →
        matchesTeam m (htmlspecialchars v) = false)
  ∧ (∀ m : MatchRecord, ∀ k fv : String, phpFieldString m k = some fv →
        strcasecmpEq fv v = true → matchesDefault m k (htmlspecialchars v) = false) := by
  refine ⟨?_, ?_, ?_, ?_, ?_⟩
  · intro k h1 h2 h3 h4 h5
    unfold sanitizePair
    rw [if_neg hv]
    simp [h1, h2, h3, h4, h5]
  · intro m t hmt hcmp
    unfold matchesHomeTeam
    rw [hmt]
    exact escaped_breaks_match t v hcmp hs
  · intro m t hmt hcmp
    unfold matchesAwayTeam
    rw [hmt]
    exact escaped_breaks_match t v hcmp hs
  · intro m th ta hh ha hch hca
    unfold matchesTeam
    rw [hh, ha]
    simp [escaped_breaks_match th v hch hs, escaped_breaks_match ta v hca hs]
  · intro m k fv hf hcmp
    unfold matchesDefault
    rw [hf]
    exact escaped_breaks_match fv v hcmp hs

/-- Witness for C10 at `v = "A&B"`: the sanitizer emits the escaped string
and a record whose home team is `a&b` no longer matches `home_team=A&B`. -/
theorem c10_escaping_breaks_filter_witness :
    sanitizePair "home_team" "A&B" = some ("home_team", PValue.str (htmlspecialchars "A&B"))
  ∧ matchesHomeTeam ⟨some "a&b", some "X", none, none, []⟩ (htmlspecialchars "A&B") = false :=
  ⟨(c10_escaping_breaks_filter "A&B" (by decide) (by decide)).1 "home_team"
      (by decide) (by decide) (by decide) (by decide) (by decide),
   (c10_escaping_breaks_filter "A&B" (by decide) (by decide)).2.1
      ⟨some "a&b", some "X", none, none, []⟩ "a&b" rfl (by decide)⟩

end FootballAPI
